import Mathlib

/-!
Shallow embedding of `src/cpe/cpeset2_3.py` (class `CPESet2_3`): the CPE 2.3
WFN set-relation and name-matching algorithm.  Python strings are embedded as
`String` / `List Char`; Python's `-1` sentinels for "unbounded" slack are kept
as `Int` values; the two `while` loops are embedded as fuel-indexed recursions
whose fuel provably dominates the number of iterations the Python loop can
perform (each iteration strictly advances a cursor bounded by the string
length).
-/

namespace CPESet2_3

/-- Embeds the five relation constants `LOGICAL_VALUE_*` of `CPESet2_3`. -/
def LOGICAL_VALUE_SUPERSET : Nat := 1

/-- Embeds `CPESet2_3.LOGICAL_VALUE_SUBSET`. -/
def LOGICAL_VALUE_SUBSET : Nat := 2

/-- Embeds `CPESet2_3.LOGICAL_VALUE_EQUAL`. -/
def LOGICAL_VALUE_EQUAL : Nat := 3

/-- Embeds `CPESet2_3.LOGICAL_VALUE_DISJOINT`. -/
def LOGICAL_VALUE_DISJOINT : Nat := 4

/-- Embeds `CPESet2_3.LOGICAL_VALUE_UNDEFINED`. -/
def LOGICAL_VALUE_UNDEFINED : Nat := 5

/-- Modelled from the spec: the "any value" marker `CPE2_3_WFN.VALUE_ANY_VALUE`
of the missing module `cpe2_3_wfn.py` (the doctests of `compare` and
`is_string` in the source fix it to the literal text `ANY`). -/
def VALUE_ANY_VALUE : String := "ANY"

/-- Modelled from the spec: the "not applicable" marker
`CPE2_3_WFN.VALUE_NOT_APPLICABLE` of the missing module `cpe2_3_wfn.py`
(the doctests fix it to the literal text `NA`). -/
def VALUE_NOT_APPLICABLE : String := "NA"

/-- Modelled from the spec: the "unset" marker `CPE2_3_WFN.VALUE_NULL` of the
missing module `cpe2_3_wfn.py`; the spec says it is a third reserved marker,
distinct from the other two, treated identically to "any value". -/
def VALUE_NULL : String := "NULL"

/-- Modelled from the spec: the multi-character wildcard
`CPE2_3_WFN.WILDCARD_MULTI` (the character `*`). -/
def WILDCARD_MULTI : List Char := ['*']

/-- Modelled from the spec: the single-character wildcard
`CPE2_3_WFN.WILDCARD_ONE` (the character `?`). -/
def WILDCARD_ONE : List Char := ['?']

/-- Modelled from the spec: the fixed ordered attribute-key set
`CPE2_3_WFN.wfn_part_keys` of the missing module `cpe2_3_wfn.py`; the spec
names part, vendor, product, version, update, edition "and related slots". -/
def wfn_part_keys : List String :=
  ["part", "vendor", "product", "version", "update", "edition",
   "language", "sw_edition", "target_sw", "target_hw", "other"]

/-- Modelled from the spec: the version tag `CPE.VERSION_2_3` of the missing
module `cpe.py`, the expected version of elements inserted by `append`. -/
def VERSION_2_3 : String := "2.3"

/-- Modelled from the spec: the style tag `CPE2_3.STYLE_WFN` of the missing
module `cpe2_3.py`, the expected canonical structured style. -/
def STYLE_WFN : String := "WFN"

/-- Python slice `l[a:b]` for non-negative bounds (with Python's clamping). -/
def pySlice (l : List Char) (a b : Nat) : List Char := (l.take b).drop a

/-- Does `pat` occur at the very start of `txt`?  (Helper for the embeddings
of Python's `str.startswith` / `str.endswith` / `str.find`.) -/
def matchesAt : List Char → List Char → Bool
  | [], _ => true
  | _ :: _, [] => false
  | p :: ps, c :: cs => p == c && matchesAt ps cs

/-- Embeds Python `s.startswith(pre)`. -/
def pyStartswith (s pre : List Char) : Bool := matchesAt pre s

/-- Embeds Python `s.startswith(pre, a, b)`: the test runs on the slice
`s[a:b]`; in particular an empty slice only starts with the empty pattern. -/
def pyStartswithSlice (s pre : List Char) (a b : Nat) : Bool :=
  matchesAt pre (pySlice s a b)

/-- Embeds Python `s.endswith(suf)`. -/
def pyEndswith (s suf : List Char) : Bool := matchesAt suf.reverse s.reverse

/-- Embeds Python `s.endswith(suf, a, b)` (test on the slice `s[a:b]`). -/
def pyEndswithSlice (s suf : List Char) (a b : Nat) : Bool :=
  matchesAt suf.reverse (pySlice s a b).reverse

/-- Embeds Python `s.count(c, a, b)`: occurrences of the character `c` in
the slice `s[a:b]`. -/
def pyCount (l : List Char) (c : Char) (a b : Nat) : Nat := (pySlice l a b).count c

/-- Scanning core of Python `s.find(sub, start)`: try successive positions
`i`, `i+1`, ... over the remaining suffix `rem` of the text. -/
def findIn (sub : List Char) : List Char → Nat → Option Nat
  | [], i => if matchesAt sub [] then some i else none
  | c :: rs, i =>
    if matchesAt sub (c :: rs) then some i else findIn sub rs (i + 1)

/-- Embeds Python `t.find(sub, start)` (`none` for Python's `-1`): the least
`i ≥ start` at which `sub` occurs in `t`, and no result when `start` exceeds
the length of `t`. -/
def pyFind (t sub : List Char) (start : Nat) : Option Nat :=
  if start > t.length then none else findIn sub (t.drop start) start

/-- Length of the run of consecutive backslash characters immediately before
position `idx` (the loop of `CPESet2_3.isEvenWildcards`). -/
def countBackslashesBefore (l : List Char) : Nat → Nat
  | 0 => 0
  | i + 1 =>
    if l.getD i ' ' == '\\' then countBackslashesBefore l i + 1 else 0

/-- Embeds `CPESet2_3.isEvenWildcards(str, idx)`: an even number of escape
characters precede position `idx`. -/
def isEvenWildcards (l : List Char) (idx : Nat) : Bool :=
  countBackslashesBefore l idx % 2 == 0

/-- Embeds `CPESet2_3.is_string(arg)`: `arg` is an ordinary string value, not
one of the three logical markers. -/
def is_string (arg : String) : Bool :=
  let isAny := arg == VALUE_ANY_VALUE
  let isNa := arg == VALUE_NOT_APPLICABLE
  let isNull := arg == VALUE_NULL
  !(isAny || isNa || isNull)

/-- Core of `CPESet2_3.contains_wildcards(s)` on the character list: the first
occurrence of `*` is flagged when it is at position 0 or its immediately
preceding character is not a backslash; otherwise the first occurrence of `?`
is examined the same way. -/
def containsWildcardsData (l : List Char) : Bool :=
  let starHit :=
    match l.findIdx? (· == '*') with
    | none => false
    | some 0 => true
    | some (i + 1) => l.getD i ' ' != '\\'
  if starHit then true
  else
    match l.findIdx? (· == '?') with
    | none => false
    | some 0 => true
    | some (i + 1) => l.getD i ' ' != '\\'

/-- Embeds `CPESet2_3.contains_wildcards(s)`. -/
def contains_wildcards (s : String) : Bool := containsWildcardsData s.data

/-- Embeds Python `s.lower()` character-wise; `Char.toLower` performs exactly
the ASCII lowering Python applies to the ASCII-only CPE attribute values. -/
def pyLower (s : String) : String := ⟨s.data.map Char.toLower⟩

/-- Embeds the leading-`?` `while` loop of `CPESet2_3.compareStrings`
(state `(start, begins)`).  Its condition calls
`source.startswith("?", start, start)`, a test on the empty slice
`source[start:start]`.  The fuel dominates the iteration count: each
iteration needs `start < len` and increments `start`. -/
def qPrefixLoop (src : List Char) : Nat → Nat → Int → Nat × Int
  | 0, start, begins => (start, begins)
  | fuel + 1, start, begins =>
    if start < src.length && pyStartswithSlice src WILDCARD_ONE start start then
      qPrefixLoop src fuel (start + 1) (begins + 1)
    else (start, begins)

/-- Embeds the trailing-`?` `while` loop of `CPESet2_3.compareStrings`
(state `(e, ends)` for the Python variables `end`, `ends`).  Its condition
calls `source.endswith("?", end - 1, end - 1)`, a test on an empty slice.
The fuel dominates the iteration count: each iteration needs `0 < e` and
decrements `e`. -/
def qSuffixLoop (src : List Char) : Nat → Nat → Int → Nat × Int
  | 0, e, ends => (e, ends)
  | fuel + 1, e, ends =>
    if 0 < e && pyEndswithSlice src WILDCARD_ONE (e - 1) (e - 1)
        && isEvenWildcards src (e - 1) then
      qSuffixLoop src fuel (e - 1) (ends + 1)
    else (e, ends)

/-- Embeds the matching `while` loop of `CPESet2_3.compareStrings` over the
stripped source `src` and the target `tgt`.  `start` is the next scan
position (the Python `index + 1`, initially `0`), `leftover` the loop
variable of the same name (initially `len(target)`).  The fuel dominates the
iteration count: `find` only returns positions `index ≤ len(tgt)` and each
new scan position is `index + 1 > start`, so the loop runs at most
`len(tgt) + 2` times. -/
def cmpLoop (src tgt : List Char) (begins ends : Int) : Nat → Nat → Int → Nat
  | 0, _, _ => LOGICAL_VALUE_DISJOINT
  | fuel + 1, start, leftover =>
    if leftover ≤ 0 then LOGICAL_VALUE_DISJOINT
    else
      match pyFind tgt src start with
      | none => LOGICAL_VALUE_DISJOINT
      | some index =>
        let escapes := pyCount tgt '\\' 0 index
        if 0 < index ∧ begins ≠ -1 ∧ begins < (index : Int) - (escapes : Int) then
          LOGICAL_VALUE_DISJOINT
        else
          let escapes2 := pyCount tgt '\\' (index + 1) tgt.length
          let leftover2 : Int :=
            (tgt.length : Int) - (index : Int) - (escapes2 : Int) - (src.length : Int)
          if 0 < leftover2 ∧ ends ≠ -1 ∧ ends < leftover2 then
            cmpLoop src tgt begins ends fuel (index + 1) leftover2
          else LOGICAL_VALUE_SUPERSET

/-- Embeds `CPESet2_3.compareStrings(source, target)`. -/
def compareStrings (source target : String) : Nat :=
  let src := source.data
  let tgt := target.data
  let sb : Nat × Int :=
    if pyStartswith src WILDCARD_MULTI then (1, -1)
    else qPrefixLoop src src.length 0 0
  let eb : Nat × Int :=
    if pyEndswith src WILDCARD_MULTI ∧ isEvenWildcards src (src.length - 1) then
      (src.length - 1, -1)
    else qSuffixLoop src src.length src.length 0
  let inner := pySlice src sb.1 eb.1
  cmpLoop inner tgt sb.2 eb.2 (tgt.length + 2) 0 (tgt.length : Int)

/-- Embeds `CPESet2_3.compare(source, target)`: the per-attribute-value
comparator. -/
def compare (source target : String) : Nat :=
  let source := if is_string source then pyLower source else source
  let target := if is_string target then pyLower target else target
  if is_string target && contains_wildcards target then
    LOGICAL_VALUE_UNDEFINED
  else if source == target then LOGICAL_VALUE_EQUAL
  else if source == VALUE_ANY_VALUE || source == VALUE_NULL then
    LOGICAL_VALUE_SUPERSET
  else if target == VALUE_ANY_VALUE || target == VALUE_NULL then
    LOGICAL_VALUE_SUBSET
  else
    let isSourceNA := source == VALUE_NOT_APPLICABLE
    let isTargetNA := target == VALUE_NOT_APPLICABLE
    if isSourceNA || isTargetNA then LOGICAL_VALUE_DISJOINT
    else compareStrings source target

/-- Modelled from the spec: a WFN identifier object (class `CPE2_3_WFN` of the
missing module `cpe2_3_wfn.py`) as read by `cpeset2_3.py` — a version tag, a
style tag, a canonical string form `str`, and the accessor
`get_value(att)` returning the attribute value (a literal string or one of
the three reserved markers). -/
structure WFN where
  version : String
  style : String
  str : String
  get_value : String → String

/-- Embeds `CPESet2_3.compare_wfns(source, target)`: the associative table
mapping each attribute key to the pairwise comparison result. -/
def compare_wfns (source target : WFN) : String → Nat :=
  fun att => compare (source.get_value att) (target.get_value att)

/-- Embeds `CPESet2_3.cpe_disjoint(source, target)`. -/
def cpe_disjoint (source target : WFN) : Bool :=
  let result_dict := compare_wfns source target
  wfn_part_keys.any fun att => result_dict att == LOGICAL_VALUE_DISJOINT

/-- Embeds `CPESet2_3.cpe_equal(source, target)`. -/
def cpe_equal (source target : WFN) : Bool :=
  let result_dict := compare_wfns source target
  wfn_part_keys.all fun att => result_dict att == LOGICAL_VALUE_EQUAL

/-- Embeds `CPESet2_3.cpe_subset(source, target)`. -/
def cpe_subset (source target : WFN) : Bool :=
  let result_dict := compare_wfns source target
  wfn_part_keys.all fun att =>
    result_dict att == LOGICAL_VALUE_SUBSET || result_dict att == LOGICAL_VALUE_EQUAL

/-- Embeds `CPESet2_3.cpe_superset(source, target)`. -/
def cpe_superset (source target : WFN) : Bool :=
  let result_dict := compare_wfns source target
  wfn_part_keys.all fun att =>
    result_dict att == LOGICAL_VALUE_SUPERSET || result_dict att == LOGICAL_VALUE_EQUAL

/-- The two exception kinds `CPESet2_3.append` can raise. -/
inductive AppendError where
  | valueError (msg : String)
  | typeError (msg : String)
deriving DecidableEq

/-- Embeds `CPESet2_3.append(self, cpe)` as a function on the member list
`self.K`: the returned list is the value of `self.K` when the method exits,
and the optional error is the exception raised, if any.  The two `raise`
statements occur before any mutation of `self.K` in the source, and the
duplicate scan returns without mutating. -/
def append (K : List WFN) (cpe : WFN) : List WFN × Option AppendError :=
  if cpe.version != VERSION_2_3 then
    (K, some (AppendError.valueError
      ("CPE name version " ++ cpe.version ++ " not valid, version 2.3 expected")))
  else if cpe.style != STYLE_WFN then
    (K, some (AppendError.typeError "Only WFN CPE names are valid"))
  else if K.any fun k => cpe.str == k.str then
    (K, none)
  else (K ++ [cpe], none)

/-- Embeds `CPESet2_3.name_match(self, wfn)` over the member list `self.K`. -/
def name_match (K : List WFN) (wfn : WFN) : Bool :=
  K.any fun N => cpe_superset wfn N

/-- Formalisation of claim C3's own wording (not of the source): some
position of `s` holds a `*` or `?` preceded by an even number of consecutive
backslash characters (the escape-parity notion of "unescaped", applied
anywhere in the string). -/
def claimUnescapedWildcardAnywhere (s : String) : Bool :=
  (List.range s.data.length).any fun i =>
    (s.data.getD i ' ' == '*' || s.data.getD i ' ' == '?')
      && countBackslashesBefore s.data i % 2 == 0

/-- The boolean value of one first-occurrence check of
`contains_wildcards` (the code's treatment of one metacharacter `d`). -/
def firstHitUnescaped (l : List Char) (d : Char) : Bool :=
  match l.findIdx? (· == d) with
  | none => false
  | some 0 => true
  | some (i + 1) => l.getD i ' ' != '\\'

/-! Concrete identifiers used by witnesses and counterexamples. -/

def wfnWildcardValues : WFN :=
  { version := "2.3", style := "WFN", str := "wfnWildcardValues",
    get_value := fun _ => "mac*" }

def wfnPlainValues : WFN :=
  { version := "2.3", style := "WFN", str := "wfnPlainValues",
    get_value := fun _ => "adobe" }

def wfnAllLitA : WFN :=
  { version := "2.3", style := "WFN", str := "wfnAllLitA",
    get_value := fun _ => "a" }

def wfnOneWildcard : WFN :=
  { version := "2.3", style := "WFN", str := "wfnOneWildcard",
    get_value := fun att => if att == "part" then "b*" else "a" }

def wfnSourceMacStar : WFN :=
  { version := "2.3", style := "WFN", str := "wfnSourceMacStar",
    get_value := fun _ => "mac*" }

def wfnTargetMac : WFN :=
  { version := "2.3", style := "WFN", str := "wfnTargetMac",
    get_value := fun _ => "mac" }

def wfnBadBoth : WFN :=
  { version := "2.2", style := "URI", str := "wfnBadBoth",
    get_value := fun _ => "a" }

def wfnGood : WFN :=
  { version := "2.3", style := "WFN", str := "wfnGood",
    get_value := fun _ => "a" }

def wfnBadVersion : WFN :=
  { version := "2.2", style := "WFN", str := "wfnBadVersion",
    get_value := fun _ => "a" }

end CPESet2_3

namespace CPESet2_3

theorem char_eq_iff_toNat {a b : Char} : a = b ↔ a.toNat = b.toNat :=
  ⟨fun h => h ▸ rfl, fun h => by
    rw [← Char.ofNat_toNat a, ← Char.ofNat_toNat b, h]⟩

theorem toNat_ofNat_lt {n : Nat} (h : n < 55296) : (Char.ofNat n).toNat = n := by
  rw [Char.ofNat, dif_pos (Or.inl h)]
  rfl

theorem toLower_spec (c : Char) :
    (65 ≤ c.toNat ∧ c.toNat ≤ 90 ∧ (Char.toLower c).toNat = c.toNat + 32) ∨
    (¬(65 ≤ c.toNat ∧ c.toNat ≤ 90) ∧ Char.toLower c = c) := by
  rw [Char.toLower]
  split
  next h => exact Or.inl ⟨h.1, h.2, toNat_ofNat_lt (by omega)⟩
  next h => exact Or.inr ⟨fun hc => h ⟨hc.1, hc.2⟩, rfl⟩

theorem toLower_eq_iff {d : Char} (hlt : d.toNat < 97)
    (hout : d.toNat < 65 ∨ 90 < d.toNat) (c : Char) :
    Char.toLower c = d ↔ c = d := by
  rcases toLower_spec c with ⟨h1, h2, h3⟩ | ⟨h, he⟩
  · constructor
    · intro hl
      have := char_eq_iff_toNat.mp hl
      omega
    · intro hc
      subst hc
      omega
  · rw [he]

theorem toLower_ne_upper {d : Char} (h65 : 65 ≤ d.toNat) (h90 : d.toNat ≤ 90)
    (c : Char) : Char.toLower c ≠ d := by
  rcases toLower_spec c with ⟨h1, h2, h3⟩ | ⟨h, he⟩
  · intro hl
    have := char_eq_iff_toNat.mp hl
    omega
  · intro hl
    rw [he] at hl
    have := char_eq_iff_toNat.mp hl
    omega

theorem beq_toLower (d : Char) (hd : ∀ c, Char.toLower c = d ↔ c = d) (c : Char) :
    (Char.toLower c == d) = (c == d) := by
  rw [Bool.eq_iff_iff]
  simp [beq_iff_eq, hd]

theorem map_toLower_ne_cons (d : Char) (h65 : 65 ≤ d.toNat) (h90 : d.toNat ≤ 90)
    (l rest : List Char) : l.map Char.toLower ≠ d :: rest := by
  cases l with
  | nil => simp
  | cons c cs =>
    intro h
    rw [List.map_cons, List.cons_eq_cons] at h
    exact toLower_ne_upper h65 h90 c h.1

theorem pyLower_ne_ANY (s : String) : pyLower s ≠ VALUE_ANY_VALUE := fun h =>
  map_toLower_ne_cons 'A' (by decide) (by decide) s.data ['N', 'Y']
    (String.ext_iff.mp h)

theorem pyLower_ne_NA (s : String) : pyLower s ≠ VALUE_NOT_APPLICABLE := fun h =>
  map_toLower_ne_cons 'N' (by decide) (by decide) s.data ['A']
    (String.ext_iff.mp h)

theorem pyLower_ne_NULL (s : String) : pyLower s ≠ VALUE_NULL := fun h =>
  map_toLower_ne_cons 'N' (by decide) (by decide) s.data ['U', 'L', 'L']
    (String.ext_iff.mp h)

theorem is_string_pyLower (s : String) : is_string (pyLower s) = true := by
  simp [is_string, pyLower_ne_ANY s, pyLower_ne_NA s, pyLower_ne_NULL s]

theorem getD_bne_backslash_map_toLower (l : List Char) (i : Nat) :
    ((l.map Char.toLower).getD i ' ' != '\\') = (l.getD i ' ' != '\\') := by
  rw [List.getD_eq_getElem?_getD, List.getD_eq_getElem?_getD, List.getElem?_map]
  cases h : l[i]? with
  | none => rfl
  | some a =>
    have hb := beq_toLower '\\'
      (toLower_eq_iff (by decide) (Or.inr (by decide))) a
    simp [bne, hb]

theorem containsWildcardsData_map_toLower (l : List Char) :
    containsWildcardsData (l.map Char.toLower) = containsWildcardsData l := by
  have hstar : ((· == '*') ∘ Char.toLower) = (fun c => c == '*') := by
    funext c
    exact beq_toLower _ (toLower_eq_iff (by decide) (Or.inl (by decide))) c
  have hq : ((· == '?') ∘ Char.toLower) = (fun c => c == '?') := by
    funext c
    exact beq_toLower _ (toLower_eq_iff (by decide) (Or.inl (by decide))) c
  unfold containsWildcardsData
  rw [List.findIdx?_map, List.findIdx?_map, hstar, hq]
  simp only [getD_bne_backslash_map_toLower]

theorem contains_wildcards_pyLower (s : String) :
    contains_wildcards (pyLower s) = contains_wildcards s :=
  containsWildcardsData_map_toLower s.data

/-- Claim C2: an unquoted wildcard in the target value (in the sense of the
source's own detector `contains_wildcards`, which §4.3 of the spec defers
to) forces the comparison result `UNDEFINED`, whatever the source value. -/
theorem claim_C2_target_wildcard_undefined (source target : String)
    (hs : is_string target = true) (hw : contains_wildcards target = true) :
    compare source target = LOGICAL_VALUE_UNDEFINED := by
  unfold compare
  simp only [hs, if_true, is_string_pyLower, contains_wildcards_pyLower, hw,
    Bool.and_self, if_pos]

/-- Witness for claim C2 at a concrete input from the source's doctests. -/
theorem claim_C2_witness : compare "Adobe" "9.*" = LOGICAL_VALUE_UNDEFINED :=
  claim_C2_target_wildcard_undefined "Adobe" "9.*" (by decide) (by decide)

theorem is_string_false_cases {x : String} (h : is_string x = false) :
    x = VALUE_ANY_VALUE ∨ x = VALUE_NOT_APPLICABLE ∨ x = VALUE_NULL := by
  simp [is_string] at h
  by_cases h1 : x = VALUE_ANY_VALUE
  · exact Or.inl h1
  by_cases h2 : x = VALUE_NOT_APPLICABLE
  · exact Or.inr (Or.inl h2)
  exact Or.inr (Or.inr (h h1 h2))

theorem compare_self (v : String)
    (h : is_string v = true → contains_wildcards v = false) :
    compare v v = LOGICAL_VALUE_EQUAL := by
  cases hv : is_string v with
  | true =>
    simp [compare, hv, is_string_pyLower, contains_wildcards_pyLower, h hv]
  | false =>
    simp [compare, hv]

/-- Amended claim C6: for every `x` other than the ANY and unset markers,
`compare(x, Any)` is `SUBSET`; `compare(Any, x)` is `SUPERSET` provided `x`
is not a literal containing an unquoted wildcard (otherwise the
target-wildcard rule yields `UNDEFINED` first). -/
theorem claim_C6_amended (x : String) (hA : x ≠ VALUE_ANY_VALUE)
    (hU : x ≠ VALUE_NULL) :
    compare x VALUE_ANY_VALUE = LOGICAL_VALUE_SUBSET ∧
    ((is_string x = true → contains_wildcards x = false) →
      compare VALUE_ANY_VALUE x = LOGICAL_VALUE_SUPERSET) := by
  constructor
  · cases hv : is_string x with
    | false =>
      rcases is_string_false_cases hv with h | h | h
      · exact absurd h hA
      · subst h
        decide
      · exact absurd h hU
    | true =>
      have h1 : (pyLower x == VALUE_ANY_VALUE) = false :=
        beq_eq_false_iff_ne.mpr (pyLower_ne_ANY x)
      have h2 : (pyLower x == VALUE_NULL) = false :=
        beq_eq_false_iff_ne.mpr (pyLower_ne_NULL x)
      have t1 : is_string VALUE_ANY_VALUE = false := by decide
      simp [compare, hv, t1, h1, h2]
  · intro hnw
    cases hv : is_string x with
    | false =>
      rcases is_string_false_cases hv with h | h | h
      · exact absurd h hA
      · subst h
        decide
      · exact absurd h hU
    | true =>
      have hw : contains_wildcards x = false := hnw hv
      have h3 : (VALUE_ANY_VALUE == pyLower x) = false :=
        beq_eq_false_iff_ne.mpr fun h => pyLower_ne_ANY x h.symm
      have t1 : is_string VALUE_ANY_VALUE = false := by decide
      simp [compare, hv, t1, h3, is_string_pyLower, contains_wildcards_pyLower, hw]

/-- Counterexample to claim C6 as stated: the literal `foo*` is neither the
ANY nor the unset marker, yet `compare(ANY, "foo*")` is `UNDEFINED`, not
`SUPERSET` (the target-wildcard rule fires first). -/
theorem claim_C6_counterexample :
    ("foo*" ≠ VALUE_ANY_VALUE) ∧ ("foo*" ≠ VALUE_NULL) ∧
    compare VALUE_ANY_VALUE "foo*" ≠ LOGICAL_VALUE_SUPERSET := by
  refine ⟨by decide, by decide, by decide⟩

/-- Witness for the amended claim C6 at the doctest value `Reader`. -/
theorem claim_C6_witness :
    compare "Reader" VALUE_ANY_VALUE = LOGICAL_VALUE_SUBSET ∧
    compare VALUE_ANY_VALUE "Reader" = LOGICAL_VALUE_SUPERSET :=
  ⟨(claim_C6_amended "Reader" (by decide) (by decide)).1,
   (claim_C6_amended "Reader" (by decide) (by decide)).2 (fun _ => by decide)⟩

/-- Amended claim C7: reflexivity of `cpe_equal` for identifiers none of
whose attribute values is a literal with an unquoted wildcard. -/
theorem claim_C7_amended (x : WFN)
    (h : ∀ att ∈ wfn_part_keys, is_string (x.get_value att) = true →
      contains_wildcards (x.get_value att) = false) :
    cpe_equal x x = true := by
  simp only [cpe_equal]
  rw [List.all_eq_true]
  intro att hatt
  have hc := compare_self (x.get_value att) (h att hatt)
  simp [compare_wfns, hc]

/-- Counterexample to claim C7 as stated: an identifier whose values carry an
unquoted trailing `*` is not `cpe_equal` to itself (each attribute compares
as `UNDEFINED`). -/
theorem claim_C7_counterexample : cpe_equal wfnWildcardValues wfnWildcardValues = false := by
  decide

/-- Witness for the amended claim C7 at a concrete wildcard-free identifier. -/
theorem claim_C7_witness : cpe_equal wfnPlainValues wfnPlainValues = true :=
  claim_C7_amended wfnPlainValues (by decide)

/-- Claim C4: the four set predicates aggregate the attribute relations as
any-DISJOINT / all-EQUAL / all-SUBSET-or-EQUAL / all-SUPERSET-or-EQUAL, and a
pair with some UNDEFINED attribute and no DISJOINT attribute falsifies all
four predicates at once. -/
theorem claim_C4_predicates (s t : WFN) :
    (cpe_disjoint s t = true ↔
      ∃ att ∈ wfn_part_keys, compare_wfns s t att = LOGICAL_VALUE_DISJOINT) ∧
    (cpe_equal s t = true ↔
      ∀ att ∈ wfn_part_keys, compare_wfns s t att = LOGICAL_VALUE_EQUAL) ∧
    (cpe_subset s t = true ↔
      ∀ att ∈ wfn_part_keys, compare_wfns s t att = LOGICAL_VALUE_SUBSET ∨
        compare_wfns s t att = LOGICAL_VALUE_EQUAL) ∧
    (cpe_superset s t = true ↔
      ∀ att ∈ wfn_part_keys, compare_wfns s t att = LOGICAL_VALUE_SUPERSET ∨
        compare_wfns s t att = LOGICAL_VALUE_EQUAL) ∧
    ((∃ att ∈ wfn_part_keys, compare_wfns s t att = LOGICAL_VALUE_UNDEFINED) →
      (∀ att ∈ wfn_part_keys, compare_wfns s t att ≠ LOGICAL_VALUE_DISJOINT) →
      cpe_disjoint s t = false ∧ cpe_equal s t = false ∧
        cpe_subset s t = false ∧ cpe_superset s t = false) := by
  have hd : cpe_disjoint s t = true ↔
      ∃ att ∈ wfn_part_keys, compare_wfns s t att = LOGICAL_VALUE_DISJOINT := by
    simp [cpe_disjoint, List.any_eq_true]
  have he : cpe_equal s t = true ↔
      ∀ att ∈ wfn_part_keys, compare_wfns s t att = LOGICAL_VALUE_EQUAL := by
    simp [cpe_equal, List.all_eq_true]
  have hsb : cpe_subset s t = true ↔
      ∀ att ∈ wfn_part_keys, compare_wfns s t att = LOGICAL_VALUE_SUBSET ∨
        compare_wfns s t att = LOGICAL_VALUE_EQUAL := by
    simp [cpe_subset, List.all_eq_true]
  have hsp : cpe_superset s t = true ↔
      ∀ att ∈ wfn_part_keys, compare_wfns s t att = LOGICAL_VALUE_SUPERSET ∨
        compare_wfns s t att = LOGICAL_VALUE_EQUAL := by
    simp [cpe_superset, List.all_eq_true]
  refine ⟨hd, he, hsb, hsp, ?_⟩
  rintro ⟨att, hatt, hu⟩ hnd
  refine ⟨?_, ?_, ?_, ?_⟩
  · rcases hb : cpe_disjoint s t with _ | _
    · rfl
    · obtain ⟨a, ha, hda⟩ := hd.mp hb
      exact absurd hda (hnd a ha)
  · rcases hb : cpe_equal s t with _ | _
    · rfl
    · have := he.mp hb att hatt
      rw [hu] at this
      exact absurd this (by decide)
  · rcases hb : cpe_subset s t with _ | _
    · rfl
    · have := hsb.mp hb att hatt
      rw [hu] at this
      exact absurd this (by decide)
  · rcases hb : cpe_superset s t with _ | _
    · rfl
    · have := hsp.mp hb att hatt
      rw [hu] at this
      exact absurd this (by decide)

/-- Witness for claim C4's conditional part: a pair whose only differing
attribute relation is `UNDEFINED` (and no attribute is `DISJOINT`) makes all
four predicates false at once. -/
theorem claim_C4_witness :
    cpe_disjoint wfnAllLitA wfnOneWildcard = false ∧
    cpe_equal wfnAllLitA wfnOneWildcard = false ∧
    cpe_subset wfnAllLitA wfnOneWildcard = false ∧
    cpe_superset wfnAllLitA wfnOneWildcard = false :=
  (claim_C4_predicates wfnAllLitA wfnOneWildcard).2.2.2.2 (by decide) (by decide)

/-- Claim C5: `name_match` holds exactly when some stored member is
generalized by the candidate under `cpe_superset`. -/
theorem claim_C5_name_match (K : List WFN) (wfn : WFN) :
    name_match K wfn = true ↔ ∃ N ∈ K, cpe_superset wfn N = true := by
  simp [name_match, List.any_eq_true]

/-- Amended claim C8: all-SUPERSET-or-EQUAL attribute relations make the
source a `cpe_superset` of the target; the reversed `cpe_subset` conjunct of
the original claim does not hold in general. -/
theorem claim_C8_amended (x y : WFN)
    (h : ∀ att ∈ wfn_part_keys, compare_wfns x y att = LOGICAL_VALUE_SUPERSET ∨
      compare_wfns x y att = LOGICAL_VALUE_EQUAL) :
    cpe_superset x y = true := by
  simp only [cpe_superset]
  rw [List.all_eq_true]
  intro att hatt
  rcases h att hatt with h1 | h1 <;> simp [h1]

/-- Counterexample to claim C8 as stated: every attribute relation from
`mac*` to `mac` is `SUPERSET`, yet the reversed comparison sees an unquoted
wildcard in its target and yields `UNDEFINED`, so `cpe_subset` fails. -/
theorem claim_C8_counterexample :
    (∀ att ∈ wfn_part_keys,
      compare_wfns wfnSourceMacStar wfnTargetMac att = LOGICAL_VALUE_SUPERSET ∨
      compare_wfns wfnSourceMacStar wfnTargetMac att = LOGICAL_VALUE_EQUAL) ∧
    ¬(cpe_superset wfnSourceMacStar wfnTargetMac = true ∧
      cpe_subset wfnTargetMac wfnSourceMacStar = true) := by
  constructor
  · decide
  · decide

/-- Witness for the amended claim C8 at the concrete pair above. -/
theorem claim_C8_witness : cpe_superset wfnSourceMacStar wfnTargetMac = true :=
  claim_C8_amended wfnSourceMacStar wfnTargetMac (by decide)

/-- Amended claim C9: `append` raises the value error exactly when the
version tag differs from 2.3; it raises the type error exactly when the
version tag is 2.3 and the style is not WFN (the version check runs first);
and appending a conforming element twice is a no-op the second time. -/
theorem claim_C9_amended (K : List WFN) (cpe : WFN) :
    ((∃ m, (append K cpe).2 = some (AppendError.valueError m)) ↔
      cpe.version ≠ VERSION_2_3) ∧
    ((∃ m, (append K cpe).2 = some (AppendError.typeError m)) ↔
      (cpe.version = VERSION_2_3 ∧ cpe.style ≠ STYLE_WFN)) ∧
    (cpe.version = VERSION_2_3 → cpe.style = STYLE_WFN →
      append (append K cpe).1 cpe = ((append K cpe).1, none)) := by
  by_cases hv : cpe.version = VERSION_2_3
  · by_cases hs : cpe.style = STYLE_WFN
    · refine ⟨?_, ?_, ?_⟩
      · simp only [append, hv, hs, bne_self_eq_false]
        by_cases hdup : K.any fun k => cpe.str == k.str <;> simp [hdup, hv]
      · simp only [append, hv, hs, bne_self_eq_false]
        by_cases hdup : K.any fun k => cpe.str == k.str <;> simp [hdup, hv, hs]
      · intro _ _
        by_cases hdup : K.any fun k => cpe.str == k.str
      
        · simp [append, hv, hs, hdup]
        · simp only [append, hv, hs, bne_self_eq_false, hdup]
          simp [List.any_append, hdup]
    · have hbs : (cpe.style != STYLE_WFN) = true := bne_iff_ne.mpr hs
      refine ⟨?_, ?_, fun _ h => absurd h hs⟩
      · simp [append, hv, hbs, hs]
      · simp [append, hv, hbs, hs]
  · have hbv : (cpe.version != VERSION_2_3) = true := bne_iff_ne.mpr hv
    refine ⟨?_, ?_, fun h _ => absurd h hv⟩
    · simp [append, hbv, hv]
    · simp [append, hbv, hv]

/-- Counterexample to claim C9 as stated: an element whose style is not WFN
but whose version also differs from 2.3 raises the value error, not the type
error the claim's "exactly when" requires. -/
theorem claim_C9_counterexample :
    wfnBadBoth.style ≠ STYLE_WFN ∧
    (append [] wfnBadBoth).2 =
      some (AppendError.valueError
        "CPE name version 2.2 not valid, version 2.3 expected") ∧
    ∀ m, (append [] wfnBadBoth).2 ≠ some (AppendError.typeError m) := by
  refine ⟨by decide, by decide, fun m h => ?_⟩
  rw [show (append [] wfnBadBoth).2 =
      some (AppendError.valueError
        "CPE name version 2.2 not valid, version 2.3 expected") from by decide] at h
  exact absurd (Option.some.inj h) (by simp)

/-- Witness for the amended claim C9: duplicate insertion of a conforming
element is a no-op. -/
theorem claim_C9_witness :
    append (append [] wfnGood).1 wfnGood = ((append [] wfnGood).1, none) :=
  (claim_C9_amended [] wfnGood).2.2 rfl rfl

/-- Claim C10: whenever `append` raises, the member list is unchanged — both
validation checks precede any mutation. -/
theorem claim_C10_append_atomic (K : List WFN) (cpe : WFN) (e : AppendError)
    (h : (append K cpe).2 = some e) : (append K cpe).1 = K := by
  by_cases h1 : (cpe.version != VERSION_2_3) = true
  · simp [append, h1]
  · by_cases h2 : (cpe.style != STYLE_WFN) = true
    · simp [append, h1, h2]
    · by_cases h3 : (K.any fun k => cpe.str == k.str) = true
      · simp [append, h1, h2, h3]
      · exfalso
        simp [append, h1, h2, h3] at h

/-- Witness for claim C10 at a concrete raising input. -/
theorem claim_C10_witness : (append [] wfnBadVersion).1 = [] :=
  claim_C10_append_atomic [] wfnBadVersion
    (AppendError.valueError "CPE name version 2.2 not valid, version 2.3 expected")
    (by decide)

/-- Claim C1 (code bug): at source `?b` and target `ab` the code returns
`DISJOINT`; the claim (and the intent documented in the source's comments)
requires the leading `?` to be stripped with prefix slack 1, making `b`
match at position 1 within the slack, i.e. `SUPERSET`.  The `?`-stripping
loops test `startswith("?", start, start)` — a match against the empty slice
`source[start:start]` — so they never strip anything. -/
theorem claim_C1_bug_eval :
    compareStrings "?b" "ab" = LOGICAL_VALUE_DISJOINT ∧
    compareStrings "b?" "ba" = LOGICAL_VALUE_DISJOINT := by
  refine ⟨by decide, by decide⟩

theorem containsWildcardsData_eq_or (l : List Char) :
    containsWildcardsData l = (firstHitUnescaped l '*' || firstHitUnescaped l '?') := by
  have hsplit : ∀ b c : Bool, (if b = true then true else c) = (b || c) := by decide
  exact hsplit (firstHitUnescaped l '*') (firstHitUnescaped l '?')

theorem firstHitUnescaped_iff (l : List Char) (d : Char) :
    firstHitUnescaped l d = true ↔
      ∃ i, l[i]? = some d ∧ (∀ j, j < i → l[j]? ≠ some d) ∧
        (i = 0 ∨ l[i - 1]? ≠ some '\\') := by
  cases h : l.findIdx? (· == d) with
  | none =>
    have hred : firstHitUnescaped l d = false := by
      unfold firstHitUnescaped
      rw [h]
    rw [hred]
    rw [List.findIdx?_eq_none_iff] at h
    simp only [Bool.false_eq_true, false_iff]
    rintro ⟨i, hi, -, -⟩
    have hmem := h d (List.getElem?_mem hi)
    simp at hmem
  | some idx =>
    rw [List.findIdx?_eq_some_iff_getElem] at h
    obtain ⟨hlt, hp, hmin⟩ := h
    have hpd : l.get ⟨idx, hlt⟩ = d := by simpa using hp
    cases idx with
    | zero =>
      have hred : firstHitUnescaped l d = true := by
        unfold firstHitUnescaped
        rw [List.findIdx?_eq_some_iff_getElem.mpr ⟨hlt, hp, hmin⟩]
      rw [hred]
      constructor
      · intro _
        refine ⟨0, ?_, fun j hj => absurd hj (Nat.not_lt_zero j), Or.inl rfl⟩
        rw [List.getElem?_eq_getElem hlt, ← hpd]
        rfl
      · intro _
        rfl
    | succ i =>
      have hlen : i < l.length := Nat.lt_of_succ_lt hlt
      have hred : firstHitUnescaped l d = (l.getD i ' ' != '\\') := by
        unfold firstHitUnescaped
        rw [List.findIdx?_eq_some_iff_getElem.mpr ⟨hlt, hp, hmin⟩]
      rw [hred]
      have hgd : l.getD i ' ' = l.get ⟨i, hlen⟩ := by
        rw [List.getD_eq_getElem?_getD, List.getElem?_eq_getElem hlen]
        rfl
      constructor
      · intro hb
        refine ⟨i + 1, ?_, ?_, ?_⟩
        · rw [List.getElem?_eq_getElem hlt, ← hpd]
          rfl
        · intro j hj hjd
          obtain ⟨hjl, hjv⟩ := List.getElem?_eq_some_iff.mp hjd
          exact absurd (beq_iff_eq.mpr hjv) (by simpa using hmin j hj)
        · right
          rw [Nat.add_sub_cancel, List.getElem?_eq_getElem hlen]
          intro hc
          have hieq : l.get ⟨i, hlen⟩ = '\\' := Option.some.inj hc
          rw [hgd, hieq] at hb
          simp at hb
      · rintro ⟨k, hk, hkmin, hkpred⟩
        obtain ⟨hkl, hkv⟩ := List.getElem?_eq_some_iff.mp hk
        have hke : k = i + 1 := by
          rcases Nat.lt_trichotomy k (i + 1) with hlt2 | heq | hgt
          · exact absurd (beq_iff_eq.mpr hkv) (by simpa using hmin k hlt2)
          · exact heq
          · refine absurd ?_ (hkmin (i + 1) hgt)
            rw [List.getElem?_eq_getElem hlt, ← hpd]
            rfl
        subst hke
        rcases hkpred with h0 | hpred
        · exact absurd h0 (Nat.succ_ne_zero i)
        · rw [Nat.add_sub_cancel, List.getElem?_eq_getElem hlen] at hpred
          rw [hgd, bne_iff_ne]
          intro hC
          refine hpred ?_
          rw [show l[i] = l.get ⟨i, hlen⟩ from rfl, hC]

/-- Amended claim C3: `contains_wildcards(s)` is true iff the first
occurrence of `*` in `s` — or, failing that test, the first occurrence of
`?` — is at position 0 or has a character other than a backslash immediately
before it.  (Neither later occurrences nor escape parity are consulted.) -/
theorem claim_C3_amended (s : String) :
    contains_wildcards s = true ↔
      ((∃ i, s.data[i]? = some '*' ∧ (∀ j, j < i → s.data[j]? ≠ some '*') ∧
          (i = 0 ∨ s.data[i - 1]? ≠ some '\\')) ∨
       (∃ i, s.data[i]? = some '?' ∧ (∀ j, j < i → s.data[j]? ≠ some '?') ∧
          (i = 0 ∨ s.data[i - 1]? ≠ some '\\'))) := by
  have hdef : contains_wildcards s = containsWildcardsData s.data := rfl
  rw [hdef, containsWildcardsData_eq_or, Bool.or_eq_true,
    firstHitUnescaped_iff, firstHitUnescaped_iff]

/-- Counterexample to claim C3 as stated: in `\**` the second `*` is
unescaped under the claim's anywhere/escape-parity notion, yet the code only
inspects the first `*`, whose immediate predecessor is a backslash, and
returns false. -/
theorem claim_C3_counterexample :
    claimUnescapedWildcardAnywhere "\\**" = true ∧
    contains_wildcards "\\**" = false := by
  refine ⟨by decide, by decide⟩

end CPESet2_3
